import Mathlib

/-!
Shallow embedding of `src/lv_objx/lv_canvas.c` (LVGL canvas object) and
proofs of its specified properties.

The canvas source file itself is embedded faithfully.  Types and helper
functions it uses that live in other files of the repository
(`lv_img_cf_t`, `lv_img_color_format_get_px_size`, `lv_img_set_src`,
`lv_img_set_style` / `lv_img_get_style`, `lv_obj_refresh_style`,
`LV_MAX_ANCESTOR_NUM`, `lv_color_t`, `lv_coord_t`) are modelled from the
spec; such definitions carry a doc comment starting `Modelled from the
spec:`.

Machine-integer conventions: `lv_coord_t` is the signed 16-bit coordinate
type, embedded as `Int`; the descriptor's width/height are the
non-negative pixel dimensions, embedded as `Nat`; the byte-offset
computation in `lv_canvas_set_px` is performed in C in `uint32_t`
arithmetic, embedded as reduction modulo `2 ^ 32`.  Executions that are
undefined behaviour in C — the `memcpy` dereferencing a NULL data
pointer, or targeting bytes outside the attached buffer — are marked by
dedicated outcomes (`nullWrite`, `oobWrite`) rather than given a
fabricated state, so no theorem about the write path silently covers
them.
-/

set_option maxRecDepth 100000

namespace LvCanvas

/-- Modelled from the spec: the color formats the canvas supports
(`LV_IMG_CF_TRUE_COLOR`, `LV_IMG_CF_TRUE_COLOR_ALPHA`,
`LV_IMG_CF_TRUE_COLOR_CHROMA_KEYED`); the enumeration is owned by the
image collaborator, which is not part of `src/`. -/
inductive lv_img_cf_t where
  | TRUE_COLOR
  | TRUE_COLOR_ALPHA
  | TRUE_COLOR_CHROMA_KEYED
deriving DecidableEq, Repr

/-- Modelled from the spec: `pixelBitSize(colorFormat)`, the per-pixel
bit size lookup provided by the image collaborator
(`lv_img_color_format_get_px_size`).  The spec's scenario fixes
true-color at 3 bytes per pixel (24 bits); true-color-with-alpha adds an
alpha byte (32 bits); chroma-keyed true color has the true-color size. -/
def lv_img_color_format_get_px_size : lv_img_cf_t → Nat
  | .TRUE_COLOR => 24
  | .TRUE_COLOR_ALPHA => 32
  | .TRUE_COLOR_CHROMA_KEYED => 24

/-- Modelled from the spec: `lv_color_t`, a color value with a raw
representation of `sizeof(lv_color_t)` = 3 bytes (the spec's scenario
writes "RED's 3-byte encoding").  Each field is one byte. -/
structure lv_color_t where
  b0 : Nat
  b1 : Nat
  b2 : Nat
deriving DecidableEq, Repr

/-- The raw byte representation of a color, as `memcpy` reads it. -/
def lv_color_t.bytes (c : lv_color_t) : List Nat := [c.b0, c.b1, c.b2]

/-- Modelled from the spec: the image header inside the pixel-buffer
descriptor (`lv_img_header_t` of the image collaborator), holding the
color format and the non-negative pixel dimensions. -/
structure lv_img_header_t where
  always_zero : Nat
  cf : lv_img_cf_t
  w : Nat
  h : Nat
deriving DecidableEq, Repr

/-- Modelled from the spec: the pixel-buffer descriptor
(`lv_img_dsc_t`): header, computed byte size, and the non-owning data
pointer.  `data = none` is the NULL pointer; `data = some buf` is an
attached buffer whose bytes are `buf`. -/
structure lv_img_dsc_t where
  header : lv_img_header_t
  data_size : Nat
  data : Option (List Nat)
deriving DecidableEq, Repr

/-- The canvas extended attribute (`lv_canvas_ext_t`): it holds the
descriptor `dsc`. -/
structure lv_canvas_ext_t where
  dsc : lv_img_dsc_t
deriving DecidableEq, Repr

/-- A canvas object: its extended attribute together with the observable
state of the base image component.  `img_src` is the descriptor value
most recently passed to `lv_img_set_src` (modelled from the spec:
`SetSource` records the new pixel source).  `img_style` is the style
held by the base image component (modelled from the spec: style get/set
delegate to the image component); a style pointer is an opaque `Nat`,
`none` is NULL.  `style_refreshed` records whether
`lv_obj_refresh_style` was invoked (modelled from the spec: the copy
path refreshes only the style linkage). -/
structure lv_canvas_obj where
  ext : lv_canvas_ext_t
  img_src : Option lv_img_dsc_t
  img_style : Option Nat
  style_refreshed : Bool
deriving DecidableEq, Repr

/-- The C `uint32_t` reduction of a (possibly negative) integer. -/
def uint32_wrap (n : Int) : Nat := (n % (2 ^ 32 : Int)).toNat

/-- Byte store at index `i` of a buffer; out-of-range indices store
nothing (the C behaviour there is undefined, and no claim depends on
it). -/
def storeByte (l : List Nat) (i : Nat) (b : Nat) : List Nat := l.set i b

/-- The model of `memcpy((void*)&data[i], &c, sizeof c)`: store the
bytes `bs` consecutively starting at index `i`.  `lv_canvas_set_px`
invokes it only when the whole range `[i, i + |bs|)` lies inside the
buffer; a write reaching outside the attached allocation is undefined
behaviour in C and is marked by the `oobWrite` outcome instead of being
modelled as a byte store. -/
def storeBytes (l : List Nat) (i : Nat) : List Nat → List Nat
  | [] => l
  | b :: bs => storeBytes (storeByte l i b) (i + 1) bs

/-- Outcome of a `lv_canvas_set_px` call.  `rejected` is the early
return with the `LV_LOG_WARN` diagnostic (no write); `written` is the
`memcpy` path with the whole 3-byte target range inside the attached
buffer, carrying the updated object; `nullWrite` marks the `memcpy`
path reached while `data` is NULL (undefined behaviour in C);
`oobWrite` marks the `memcpy` path whose computed `uint32_t` offset
sends part of the 3-byte write outside the attached buffer — an
out-of-bounds wild write, undefined behaviour in C, after which the
program guarantees nothing about any state. -/
inductive SetPxOutcome where
  | rejected (o : lv_canvas_obj)
  | written (o : lv_canvas_obj)
  | nullWrite
  | oobWrite
deriving DecidableEq, Repr

/-- Whether the outcome is the diagnostic-and-no-write early return. -/
def SetPxOutcome.isRejected : SetPxOutcome → Bool
  | .rejected _ => true
  | _ => false

/-- Whether the outcome is the `memcpy` write path — the `memcpy`
executed, be it inside the attached buffer (`written`) or out of
bounds (`oobWrite`). -/
def SetPxOutcome.isWritten : SetPxOutcome → Bool
  | .written _ => true
  | .oobWrite => true
  | _ => false

/-- Embedding of `lv_canvas_set_px` (src/lv_objx/lv_canvas.c:102-115).
The bounds check is the source's `x >= w || y >= h` over signed
coordinates; `px_size` is `lv_img_color_format_get_px_size(cf) >> 3`;
the byte offset `px = w * y * px_size + x * px_size` is computed in
`uint32_t` arithmetic; `memcpy` writes the 3 raw bytes of `c` at `px`.
When that 3-byte range does not lie inside the attached buffer the C
`memcpy` is an out-of-bounds write (undefined behaviour), recorded as
`oobWrite`; the in-range store is modelled by `storeBytes`. -/
def lv_canvas_set_px (o : lv_canvas_obj) (x y : Int) (c : lv_color_t) :
    SetPxOutcome :=
  if (o.ext.dsc.header.w : Int) ≤ x ∨ (o.ext.dsc.header.h : Int) ≤ y then
    .rejected o
  else
    let px_size : Nat := lv_img_color_format_get_px_size o.ext.dsc.header.cf >>> 3
    let px : Nat := uint32_wrap ((o.ext.dsc.header.w : Int) * y * px_size + x * px_size)
    match o.ext.dsc.data with
    | none => .nullWrite
    | some buf =>
        if px + 3 ≤ buf.length then
          .written { o with ext := { dsc := { o.ext.dsc with
                       data := some (storeBytes buf px c.bytes) } } }
        else .oobWrite

/-- Embedding of `lv_canvas_set_buffer` (src/lv_objx/lv_canvas.c:136-147):
sets the descriptor's format, dimensions, data pointer and computed
`data_size = (px_size(cf) * w * h) / 8`, then calls `lv_img_set_src`
with the updated descriptor. -/
def lv_canvas_set_buffer (o : lv_canvas_obj) (buf : List Nat) (w h : Nat)
    (cf : lv_img_cf_t) : lv_canvas_obj :=
  let dsc' : lv_img_dsc_t :=
    { header := { always_zero := o.ext.dsc.header.always_zero
                  cf := cf, w := w, h := h }
      data_size := (lv_img_color_format_get_px_size cf * w * h) / 8
      data := some buf }
  { o with ext := { dsc := dsc' }, img_src := some dsc' }

/-- The empty descriptor written by `lv_canvas_create`
(src/lv_objx/lv_canvas.c:62-67): `always_zero = 0`,
`cf = LV_IMG_CF_TRUE_COLOR`, `h = 0`, `w = 0`, `data_size = 0`,
`data = NULL`. -/
def empty_dsc : lv_img_dsc_t :=
  { header := { always_zero := 0, cf := .TRUE_COLOR, w := 0, h := 0 }
    data_size := 0
    data := none }

/-- Embedding of `lv_canvas_create` (src/lv_objx/lv_canvas.c:44-89).
The two external allocations — `lv_img_create` and
`lv_obj_allocate_ext_attr` — can each fail; their success is passed in
as `imgOk` and `allocOk` (the source checks each result for NULL and
returns NULL).  On success the ext descriptor is initialised empty,
`lv_img_set_src` is called with it, and when `copy` is non-NULL the
only copy-specific action is `lv_obj_refresh_style`. -/
def lv_canvas_create (imgOk allocOk : Bool) (copy : Option lv_canvas_obj) :
    Option lv_canvas_obj :=
  if imgOk = false then none
  else if allocOk = false then none
  else
    some { ext := { dsc := empty_dsc }
           img_src := some empty_dsc
           img_style := none
           style_refreshed := copy.isSome }

/-- Modelled from the spec: the single recognized style kind
`LV_CANVAS_STYLE_MAIN`; the kind argument is an integer-valued enum. -/
def LV_CANVAS_STYLE_MAIN : Nat := 0

/-- Embedding of `lv_canvas_set_style` (src/lv_objx/lv_canvas.c:155-162):
a switch whose only case is `LV_CANVAS_STYLE_MAIN`, delegating to
`lv_img_set_style` (modelled from the spec: the image component stores
the style); any other kind falls through and changes nothing. -/
def lv_canvas_set_style (o : lv_canvas_obj) (t : Nat) (style : Nat) :
    lv_canvas_obj :=
  if t = LV_CANVAS_STYLE_MAIN then { o with img_style := some style } else o

/-- Embedding of `lv_canvas_get_style` (src/lv_objx/lv_canvas.c:174-188):
`LV_CANVAS_STYLE_MAIN` delegates to `lv_img_get_style` (modelled from
the spec: the image component's current style); the default branch
returns NULL. -/
def lv_canvas_get_style (o : lv_canvas_obj) (t : Nat) : Option Nat :=
  if t = LV_CANVAS_STYLE_MAIN then o.img_style else none

/-- Modelled from the spec: `LV_MAX_ANCESTOR_NUM`, the fixed maximum
length of the type chain (the default configured value is 8). -/
def LV_MAX_ANCESTOR_NUM : Nat := 8

/-- Result codes of a signal handler: `OK` means the object still
exists, `INV` that it was deleted. -/
inductive lv_res_t where
  | OK
  | INV
deriving DecidableEq, Repr

/-- The signal kinds the canvas handler distinguishes
(`LV_SIGNAL_CLEANUP`, `LV_SIGNAL_GET_TYPE`, anything else). -/
inductive lv_signal_t where
  | CLEANUP
  | GET_TYPE
  | OTHER
deriving DecidableEq, Repr

/-- Embedding of the `GET_TYPE` loop of `lv_canvas_signal`
(src/lv_objx/lv_canvas.c:217-223): `for(i = 0; i < N-1; i++)
if(buf->type[i] == NULL) break;` — the index of the first NULL slot
among the first `fuel` slots, or `fuel` itself when none of those is
NULL.  `first_unset buf (LV_MAX_ANCESTOR_NUM - 1)` is the loop's final
`i`. -/
def first_unset : List (Option String) → Nat → Nat
  | _, 0 => 0
  | [], _ => 0
  | none :: _, _ + 1 => 0
  | some _ :: rest, fuel + 1 => first_unset rest fuel + 1

/-- The canvas-specific `GET_TYPE` processing of `lv_canvas_signal`
(src/lv_objx/lv_canvas.c:217-224): run the search loop, then
unconditionally store `"lv_canvas"` at the resulting index. -/
def canvas_get_type (buf : List (Option String)) : List (Option String) :=
  buf.set (first_unset buf (LV_MAX_ANCESTOR_NUM - 1)) (some "lv_canvas")

/-- Embedding of `lv_canvas_signal` (src/lv_objx/lv_canvas.c:205-228).
`anc` is the result of the ancestor handler, which ran first; a non-OK
ancestor result is returned at once with no canvas-specific processing.
`CLEANUP` does nothing; `GET_TYPE` rewrites the type buffer. -/
def lv_canvas_signal (anc : lv_res_t) (sign : lv_signal_t)
    (buf : List (Option String)) : lv_res_t × List (Option String) :=
  if anc = .OK then
    if sign = .CLEANUP then (.OK, buf)
    else if sign = .GET_TYPE then (.OK, canvas_get_type buf)
    else (.OK, buf)
  else (anc, buf)

/-- The per-pixel byte size `px_size` computed by `lv_canvas_set_px`:
`lv_img_color_format_get_px_size(cf) >> 3`. -/
def px_bytes (cf : lv_img_cf_t) : Nat := lv_img_color_format_get_px_size cf >>> 3

/-- A concrete red color (the spec scenario's `RED`), 3-byte encoding. -/
def lv_color_red : lv_color_t := ⟨255, 0, 0⟩

/-- The canvas object produced by a successful `lv_canvas_create` with
no copy source: empty descriptor, source set, no style, no refresh. -/
def fresh_canvas : lv_canvas_obj :=
  { ext := ⟨empty_dsc⟩
    img_src := some empty_dsc
    img_style := none
    style_refreshed := false }

/-- The spec scenario's canvas: a fresh canvas after
`SetBuffer(buf, 10, 10, TRUE_COLOR)` with a zero-filled 300-byte
buffer. -/
def canvas10 : lv_canvas_obj :=
  lv_canvas_set_buffer fresh_canvas (List.replicate 300 0) 10 10 .TRUE_COLOR

/-- The 10×10 scenario canvas after `SetPixel(5, 5, RED)`: the same
object with RED's bytes stored at offset 165 of the buffer. -/
def canvas10_after : lv_canvas_obj :=
  { canvas10 with
    ext := ⟨{ canvas10.ext.dsc with
              data := some (storeBytes (List.replicate 300 0) 165
                lv_color_red.bytes) }⟩ }

/-- Chain of exactly `LV_MAX_ANCESTOR_NUM` occupied type slots. -/
def full_type_chain : List (Option String) :=
  List.replicate LV_MAX_ANCESTOR_NUM (some "x")

/-- Chain with two occupied slots and six unset ones. -/
def short_type_chain : List (Option String) :=
  [some "a", some "b", none, none, none, none, none, none]

/- ===================== Helper lemmas ===================== -/

theorem uint32_wrap_coe (n : Nat) (h : n < 2 ^ 32) : uint32_wrap (n : Int) = n := by
  unfold uint32_wrap
  rw [Int.emod_eq_of_lt (by positivity) (by exact_mod_cast h)]
  exact Int.toNat_natCast n

theorem px_size_bytes_ge_three (cf : lv_img_cf_t) :
    3 ≤ lv_img_color_format_get_px_size cf >>> 3 := by
  cases cf <;> decide

theorem storeByte_length (l : List Nat) (i b : Nat) :
    (storeByte l i b).length = l.length := List.length_set l i b

theorem storeBytes_length (bs : List Nat) (l : List Nat) (i : Nat) :
    (storeBytes l i bs).length = l.length := by
  induction bs generalizing l i with
  | nil => rfl
  | cons b bs ih => simp [storeBytes, ih, storeByte_length]

theorem first_unset_le (buf : List (Option String)) (fuel : Nat) :
    first_unset buf fuel ≤ fuel := by
  induction buf generalizing fuel with
  | nil => cases fuel <;> simp [first_unset]
  | cons hd tl ih =>
      cases fuel with
      | zero => simp [first_unset]
      | succ fuel =>
          cases hd with
          | none => simp [first_unset]
          | some s => simpa [first_unset] using ih fuel

theorem first_unset_before (buf : List (Option String)) (fuel k : Nat)
    (hk : k < first_unset buf fuel) : ∃ s, buf[k]? = some (some s) := by
  induction buf generalizing fuel k with
  | nil => cases fuel <;> simp [first_unset] at hk
  | cons hd tl ih =>
      cases fuel with
      | zero => simp [first_unset] at hk
      | succ fuel =>
          cases hd with
          | none => simp [first_unset] at hk
          | some s =>
              cases k with
              | zero => exact ⟨s, by simp⟩
              | succ k =>
                  simp only [first_unset, Nat.add_lt_add_iff_right] at hk
                  simpa using ih fuel k hk

theorem first_unset_at (buf : List (Option String)) (fuel : Nat)
    (hfuel : fuel ≤ buf.length) (hlt : first_unset buf fuel < fuel) :
    buf[first_unset buf fuel]? = some none := by
  induction buf generalizing fuel with
  | nil => simp at hfuel; omega
  | cons hd tl ih =>
      cases fuel with
      | zero => simp [first_unset] at hlt
      | succ fuel =>
          cases hd with
          | none => simp [first_unset]
          | some s =>
              simp only [first_unset, Nat.add_lt_add_iff_right] at hlt
              simp only [List.length_cons, Nat.succ_le_succ_iff] at hfuel
              simpa [first_unset] using ih fuel hfuel hlt

/- ===================== Claim theorems ===================== -/

/-- Claim C3: after `SetBuffer(buf, w, h, cf)` the descriptor holds
exactly width `w`, height `h`, color format `cf`, data `buf`, and
`dataSize = pixelBitSize(cf) * w * h / 8`, and `lv_img_set_src` is
invoked with the updated descriptor. -/
theorem set_buffer_updates_descriptor (o : lv_canvas_obj) (buf : List Nat)
    (w h : Nat) (cf : lv_img_cf_t) :
    (lv_canvas_set_buffer o buf w h cf).ext.dsc.header.w = w ∧
    (lv_canvas_set_buffer o buf w h cf).ext.dsc.header.h = h ∧
    (lv_canvas_set_buffer o buf w h cf).ext.dsc.header.cf = cf ∧
    (lv_canvas_set_buffer o buf w h cf).ext.dsc.data = some buf ∧
    (lv_canvas_set_buffer o buf w h cf).ext.dsc.data_size =
      lv_img_color_format_get_px_size cf * w * h / 8 ∧
    (lv_canvas_set_buffer o buf w h cf).img_src =
      some (lv_canvas_set_buffer o buf w h cf).ext.dsc := by
  simp [lv_canvas_set_buffer]

/-- Claim C5: every successful `Create` initialises the descriptor
empty: width 0, height 0, true-color format, NULL data, data size 0. -/
theorem create_initializes_empty_descriptor (imgOk allocOk : Bool)
    (copy : Option lv_canvas_obj) (o : lv_canvas_obj)
    (h : lv_canvas_create imgOk allocOk copy = some o) :
    o.ext.dsc.header.w = 0 ∧ o.ext.dsc.header.h = 0 ∧
    o.ext.dsc.header.cf = lv_img_cf_t.TRUE_COLOR ∧
    o.ext.dsc.data = none ∧ o.ext.dsc.data_size = 0 := by
  cases imgOk with
  | false => simp [lv_canvas_create] at h
  | true =>
      cases allocOk with
      | false => simp [lv_canvas_create] at h
      | true =>
          simp only [lv_canvas_create, Bool.true_eq_false, reduceIte,
            Option.some.injEq] at h
          subst h
          simp [empty_dsc]

/-- Witness for `create_initializes_empty_descriptor` at
`imgOk = allocOk = true`, `copy = none`, `o = fresh_canvas`. -/
theorem create_initializes_empty_descriptor_witness :
    lv_canvas_create true true none = some fresh_canvas ∧
    (fresh_canvas.ext.dsc.header.w = 0 ∧ fresh_canvas.ext.dsc.header.h = 0 ∧
     fresh_canvas.ext.dsc.header.cf = lv_img_cf_t.TRUE_COLOR ∧
     fresh_canvas.ext.dsc.data = none ∧ fresh_canvas.ext.dsc.data_size = 0) :=
  ⟨by decide, create_initializes_empty_descriptor true true none fresh_canvas (by decide)⟩

/-- Claim C6: `Create` with a copy source yields the same empty
descriptor state as `Create` without one; the only copy-specific effect
is the style-linkage refresh.  In particular no pixel-descriptor field
of the copy source is carried over. -/
theorem create_copy_refreshes_style_only (c : lv_canvas_obj) :
    lv_canvas_create true true (some c) =
      some { ext := ⟨empty_dsc⟩, img_src := some empty_dsc,
             img_style := none, style_refreshed := true } ∧
    (lv_canvas_create true true (some c)).map lv_canvas_obj.ext =
      (lv_canvas_create true true none).map lv_canvas_obj.ext := by
  constructor
  · simp [lv_canvas_create]
  · simp [lv_canvas_create]

/-- Claim C7: `Create` returns NULL exactly when base image creation
fails or extended-attribute allocation fails. -/
theorem create_fails_iff_alloc_fails (imgOk allocOk : Bool)
    (copy : Option lv_canvas_obj) :
    lv_canvas_create imgOk allocOk copy = none ↔
      (imgOk = false ∨ allocOk = false) := by
  cases imgOk <;> cases allocOk <;> simp [lv_canvas_create]

/-- Claim C8: `GetStyle(MAIN)` after `SetStyle(MAIN, s)` returns `s`
(both delegating to the image component's style state), while any other
kind reads as NULL and is a no-op to set. -/
theorem canvas_style_roundtrip (o : lv_canvas_obj) (s k : Nat)
    (hk : k ≠ LV_CANVAS_STYLE_MAIN) :
    lv_canvas_get_style (lv_canvas_set_style o LV_CANVAS_STYLE_MAIN s)
        LV_CANVAS_STYLE_MAIN = some s ∧
    lv_canvas_get_style o k = none ∧
    lv_canvas_set_style o k s = o := by
  refine ⟨?_, ?_, ?_⟩
  · simp [lv_canvas_get_style, lv_canvas_set_style]
  · simp [lv_canvas_get_style, hk]
  · simp [lv_canvas_set_style, hk]

/-- Witness for `canvas_style_roundtrip` at the fresh canvas with style
pointer `1` and the unrecognized kind `1`. -/
theorem canvas_style_roundtrip_witness :
    (1 : Nat) ≠ LV_CANVAS_STYLE_MAIN ∧
    (lv_canvas_get_style (lv_canvas_set_style fresh_canvas LV_CANVAS_STYLE_MAIN 1)
        LV_CANVAS_STYLE_MAIN = some 1 ∧
     lv_canvas_get_style fresh_canvas 1 = none ∧
     lv_canvas_set_style fresh_canvas 1 1 = fresh_canvas) :=
  ⟨by decide, canvas_style_roundtrip fresh_canvas 1 1 (by decide)⟩

/-- Claim C2 (amended): `SetPixel` rejects — emits the diagnostic and
performs no write, returning with every byte of the buffer and the
whole object unchanged — whenever `x ≥ width` or `y ≥ height`. -/
theorem set_px_out_of_canvas_rejected (o : lv_canvas_obj) (x y : Int)
    (c : lv_color_t)
    (hviol : (o.ext.dsc.header.w : Int) ≤ x ∨ (o.ext.dsc.header.h : Int) ≤ y) :
    lv_canvas_set_px o x y c = .rejected o := by
  unfold lv_canvas_set_px
  rw [if_pos hviol]

/-- Witness for `set_px_out_of_canvas_rejected`: the spec scenario's
rejected call `SetPixel(10, 5, RED)` on the 10×10 canvas. -/
theorem set_px_out_of_canvas_rejected_witness :
    ((canvas10.ext.dsc.header.w : Int) ≤ 10 ∨ (canvas10.ext.dsc.header.h : Int) ≤ 5) ∧
    lv_canvas_set_px canvas10 10 5 lv_color_red = .rejected canvas10 :=
  ⟨by decide, set_px_out_of_canvas_rejected canvas10 10 5 lv_color_red (by decide)⟩

/-- Counterexample to claim C2 as stated: on the 10×10 canvas the call
`SetPixel(-1, 0, RED)` violates the precondition `0 ≤ x`, yet the code
does not take the diagnostic-and-no-write early return — the signed
bounds check `x >= w || y >= h` is false at `x = -1`, so the `memcpy`
write path executes (out of bounds, at `uint32_t` offset `2^32 - 3`). -/
theorem set_px_negative_coordinate_not_rejected :
    (lv_canvas_set_px canvas10 (-1) 0 lv_color_red).isRejected = false ∧
    (lv_canvas_set_px canvas10 (-1) 0 lv_color_red).isWritten = true := by
  constructor <;> rfl

/-- Claim C10: on a freshly created canvas (empty descriptor, width 0),
every `SetPixel` with non-negative coordinates fails the bounds check
and is rejected without any write, so the NULL data pointer is never
dereferenced. -/
theorem fresh_canvas_set_px_rejected (o : lv_canvas_obj) (x y : Int)
    (c : lv_color_t) (hcreate : lv_canvas_create true true none = some o)
    (hx : 0 ≤ x) (hy : 0 ≤ y) :
    lv_canvas_set_px o x y c = .rejected o := by
  simp only [lv_canvas_create, Bool.true_eq_false, reduceIte,
    Option.some.injEq] at hcreate
  subst hcreate
  unfold lv_canvas_set_px
  rw [if_pos]
  left
  simpa [empty_dsc] using hx

/-- Witness for `fresh_canvas_set_px_rejected` at `(0, 0)` with RED. -/
theorem fresh_canvas_set_px_rejected_witness :
    lv_canvas_create true true none = some fresh_canvas ∧
    (0 : Int) ≤ 0 ∧
    lv_canvas_set_px fresh_canvas 0 0 lv_color_red = .rejected fresh_canvas :=
  ⟨by decide, le_refl 0,
   fresh_canvas_set_px_rejected fresh_canvas 0 0 lv_color_red (by decide)
     (le_refl 0) (le_refl 0)⟩

/-- Claim C1: for in-bounds coordinates, `SetPixel(x, y, c)` on a canvas
set up by `SetBuffer(buf, w, h, cf)` takes the write path, storing the 3
raw bytes of `c` at byte offset `w * y * pxB + x * pxB`
(`pxB = pixelBitSize(cf) / 8`), and reading the color-sized slot at that
row-major offset afterwards yields `c`'s bytes.  The hypotheses are the
caller contract that the buffer capacity covers the canvas and that the
canvas byte size fits `uint32_t` arithmetic. -/
theorem set_px_in_bounds_writes (o : lv_canvas_obj) (buf : List Nat)
    (w h x y : Nat) (cf : lv_img_cf_t) (c : lv_color_t)
    (hx : x < w) (hy : y < h)
    (hlen : px_bytes cf * (w * h) ≤ buf.length)
    (hwrap : px_bytes cf * (w * h) < 2 ^ 32) :
    lv_canvas_set_px (lv_canvas_set_buffer o buf w h cf) (x : Int) (y : Int) c =
      SetPxOutcome.written
        { lv_canvas_set_buffer o buf w h cf with
          ext := ⟨{ (lv_canvas_set_buffer o buf w h cf).ext.dsc with
                    data := some (storeBytes buf
                      (w * y * px_bytes cf + x * px_bytes cf) c.bytes) }⟩ } ∧
    (storeBytes buf (w * y * px_bytes cf + x * px_bytes cf)
        c.bytes)[w * y * px_bytes cf + x * px_bytes cf]? = some c.b0 ∧
    (storeBytes buf (w * y * px_bytes cf + x * px_bytes cf)
        c.bytes)[w * y * px_bytes cf + x * px_bytes cf + 1]? = some c.b1 ∧
    (storeBytes buf (w * y * px_bytes cf + x * px_bytes cf)
        c.bytes)[w * y * px_bytes cf + x * px_bytes cf + 2]? = some c.b2 := by
  have h3 : 3 ≤ px_bytes cf := px_size_bytes_ge_three cf
  have hsucc : w * y + x + 1 ≤ w * h := by
    calc w * y + x + 1 ≤ w * y + w := by omega
    _ = w * (y + 1) := by ring
    _ ≤ w * h := Nat.mul_le_mul_left w hy
  have hoff : (w * y + x + 1) * px_bytes cf ≤ px_bytes cf * (w * h) := by
    rw [Nat.mul_comm (px_bytes cf)]
    exact Nat.mul_le_mul_right _ hsucc
  have hoffl : w * y * px_bytes cf + x * px_bytes cf + 3 ≤ buf.length := by
    have : w * y * px_bytes cf + x * px_bytes cf + 3 ≤
        (w * y + x + 1) * px_bytes cf := by nlinarith
    omega
  have hoffw : w * y * px_bytes cf + x * px_bytes cf < 2 ^ 32 := by
    have : w * y * px_bytes cf + x * px_bytes cf + 3 ≤
        (w * y + x + 1) * px_bytes cf := by nlinarith
    omega
  have hcond : ¬ (((lv_canvas_set_buffer o buf w h cf).ext.dsc.header.w : Int) ≤ (x : Int) ∨
      ((lv_canvas_set_buffer o buf w h cf).ext.dsc.header.h : Int) ≤ (y : Int)) := by
    simp only [lv_canvas_set_buffer]
    omega
  unfold lv_canvas_set_px
  rw [if_neg hcond]
  simp only [lv_canvas_set_buffer]
  have hpx : uint32_wrap ((w : Int) * (y : Int) *
      (lv_img_color_format_get_px_size cf >>> 3 : Nat) + (x : Int) *
      (lv_img_color_format_get_px_size cf >>> 3 : Nat)) =
      w * y * px_bytes cf + x * px_bytes cf := by
    have hc : ((w : Int) * (y : Int) * (lv_img_color_format_get_px_size cf >>> 3 : Nat)
        + (x : Int) * (lv_img_color_format_get_px_size cf >>> 3 : Nat)) =
        ((w * y * px_bytes cf + x * px_bytes cf : Nat) : Int) := by
      push_cast [px_bytes]
      ring
    rw [hc, uint32_wrap_coe _ hoffw]
  have hexp : storeBytes buf (w * y * px_bytes cf + x * px_bytes cf) c.bytes =
      ((buf.set (w * y * px_bytes cf + x * px_bytes cf) c.b0).set
        (w * y * px_bytes cf + x * px_bytes cf + 1) c.b1).set
        (w * y * px_bytes cf + x * px_bytes cf + 2) c.b2 := rfl
  refine ⟨?_, ?_, ?_, ?_⟩
  · simp only [hpx]
    rw [if_pos (by simpa using hoffl)]
  · rw [hexp, List.getElem?_set_ne (by omega), List.getElem?_set_ne (by omega),
      List.getElem?_set_eq_of_lt c.b0 (by omega)]
  · rw [hexp, List.getElem?_set_ne (by omega),
      List.getElem?_set_eq_of_lt c.b1 (by rw [List.length_set]; omega)]
  · rw [hexp,
      List.getElem?_set_eq_of_lt c.b2 (by rw [List.length_set, List.length_set]; omega)]

/-- Witness for `set_px_in_bounds_writes`: the spec scenario —
`SetBuffer(buf, 10, 10, TRUE_COLOR)` with a 300-byte buffer, then
`SetPixel(5, 5, RED)`; RED's 3-byte encoding lands at byte offset
`10 * 5 * 3 + 5 * 3 = 165`. -/
theorem set_px_in_bounds_writes_witness :
    (5 : Nat) < 10 ∧
    px_bytes lv_img_cf_t.TRUE_COLOR * (10 * 10) ≤ (List.replicate 300 (0 : Nat)).length ∧
    (storeBytes (List.replicate 300 (0 : Nat)) 165 lv_color_red.bytes)[165]? = some 255 ∧
    (storeBytes (List.replicate 300 (0 : Nat)) 165 lv_color_red.bytes)[166]? = some 0 ∧
    (storeBytes (List.replicate 300 (0 : Nat)) 165 lv_color_red.bytes)[167]? = some 0 :=
  ⟨by decide, by decide,
   (set_px_in_bounds_writes fresh_canvas (List.replicate 300 0) 10 10 5 5
      .TRUE_COLOR lv_color_red (by decide) (by decide) (by decide) (by decide)).2.1,
   (set_px_in_bounds_writes fresh_canvas (List.replicate 300 0) 10 10 5 5
      .TRUE_COLOR lv_color_red (by decide) (by decide) (by decide) (by decide)).2.2.1,
   (set_px_in_bounds_writes fresh_canvas (List.replicate 300 0) 10 10 5 5
      .TRUE_COLOR lv_color_red (by decide) (by decide) (by decide) (by decide)).2.2.2⟩

/-- Claim C9 (amended): whenever a `SetPixel` call is rejected, or its
`memcpy` lands entirely inside the attached buffer, the descriptor is
unchanged — the header (width, height, color format), the data size,
the data pointer (its NULL-ness and its allocation length), and the
rest of the object's state are all preserved; only bytes inside the
attached buffer change.  Calls whose computed offset sends the write
outside the attached buffer (`oobWrite`) or that dereference a NULL
pointer (`nullWrite`) are undefined behaviour with no preservation
guarantee, and are not covered. -/
theorem set_px_preserves_descriptor (o : lv_canvas_obj) (x y : Int)
    (c : lv_color_t) (e : lv_canvas_obj)
    (h : lv_canvas_set_px o x y c = .rejected e ∨
         lv_canvas_set_px o x y c = .written e) :
    e.ext.dsc.header = o.ext.dsc.header ∧
    e.ext.dsc.data_size = o.ext.dsc.data_size ∧
    e.ext.dsc.data.isSome = o.ext.dsc.data.isSome ∧
    e.ext.dsc.data.map List.length = o.ext.dsc.data.map List.length ∧
    e.img_src = o.img_src ∧ e.img_style = o.img_style := by
  unfold lv_canvas_set_px at h
  by_cases hc : (o.ext.dsc.header.w : Int) ≤ x ∨ (o.ext.dsc.header.h : Int) ≤ y
  · rw [if_pos hc] at h
    rcases h with h | h
    · injection h with h
      subst h
      exact ⟨rfl, rfl, rfl, rfl, rfl, rfl⟩
    · simp at h
  · rw [if_neg hc] at h
    simp only [] at h
    cases hdata : o.ext.dsc.data with
    | none =>
        simp only [hdata] at h
        rcases h with h | h <;> simp at h
    | some buf =>
        simp only [hdata] at h
        rcases h with h | h
        · split at h <;> simp at h

        · split at h
          · injection h with h
            subst h
            refine ⟨rfl, rfl, by simp [hdata], ?_, rfl, rfl⟩
            simp [hdata, storeBytes_length]
          · simp at h

/-- Witness for `set_px_preserves_descriptor`: the in-range write
`SetPixel(5, 5, RED)` on the 10×10 canvas preserves the header and the
data size. -/
theorem set_px_preserves_descriptor_witness :
    (lv_canvas_set_px canvas10 5 5 lv_color_red = .rejected canvas10_after ∨
     lv_canvas_set_px canvas10 5 5 lv_color_red = .written canvas10_after) ∧
    canvas10_after.ext.dsc.header = canvas10.ext.dsc.header ∧
    canvas10_after.ext.dsc.data_size = canvas10.ext.dsc.data_size :=
  ⟨Or.inr (by decide),
   (set_px_preserves_descriptor canvas10 5 5 lv_color_red canvas10_after
      (Or.inr (by decide))).1,
   (set_px_preserves_descriptor canvas10 5 5 lv_color_red canvas10_after
      (Or.inr (by decide))).2.1⟩

/-- Counterexample to claim C9 as stated: the claim quantifies over
every coordinate pair, but at `SetPixel(-1, 0, RED)` on the 10×10
canvas — a pair that reaches the write path — the `memcpy` targets the
3 bytes at `uint32_t` offset `2^32 - 3`, outside the 300-byte attached
buffer: the call modifies state that is not bytes inside the attached
pixel buffer (an out-of-bounds wild write, undefined behaviour), so no
descriptor field is guaranteed preserved there. -/
theorem set_px_oob_write_unprotected :
    lv_canvas_set_px canvas10 (-1) 0 lv_color_red = SetPxOutcome.oobWrite ∧
    canvas10.ext.dsc.data.map List.length = some 300 := by
  constructor <;> rfl

/-- Claim C4 (amended): on a full-capacity type chain the `GET_TYPE`
handler writes `"lv_canvas"` at `first_unset buf (N-1)` where
`N = LV_MAX_ANCESTOR_NUM`: that index is below `N` (the chain never
grows past the maximum), every slot before it is populated and kept
unchanged (as is every slot other than it), and as long as it is below
`N - 1` it is the first unset slot.  When the first `N - 1` slots are
all occupied, the index is `N - 1` and the tag overwrites the last
slot rather than being dropped. -/
theorem canvas_get_type_appends (buf : List (Option String))
    (hlen : buf.length = LV_MAX_ANCESTOR_NUM) :
    first_unset buf (LV_MAX_ANCESTOR_NUM - 1) < LV_MAX_ANCESTOR_NUM ∧
    (canvas_get_type buf).length = buf.length ∧
    (canvas_get_type buf)[first_unset buf (LV_MAX_ANCESTOR_NUM - 1)]? =
      some (some "lv_canvas") ∧
    (∀ k, k ≠ first_unset buf (LV_MAX_ANCESTOR_NUM - 1) →
      (canvas_get_type buf)[k]? = buf[k]?) ∧
    (∀ k, k < first_unset buf (LV_MAX_ANCESTOR_NUM - 1) →
      ∃ s, buf[k]? = some (some s)) ∧
    (first_unset buf (LV_MAX_ANCESTOR_NUM - 1) < LV_MAX_ANCESTOR_NUM - 1 →
      buf[first_unset buf (LV_MAX_ANCESTOR_NUM - 1)]? = some none) := by
  have hle : first_unset buf (LV_MAX_ANCESTOR_NUM - 1) ≤ LV_MAX_ANCESTOR_NUM - 1 :=
    first_unset_le buf (LV_MAX_ANCESTOR_NUM - 1)
  have hN : (0 : Nat) < LV_MAX_ANCESTOR_NUM := by decide
  refine ⟨by omega, ?_, ?_, ?_, ?_, ?_⟩
  · exact List.length_set buf _ _
  · exact List.getElem?_set_eq_of_lt _ (by omega)
  · intro k hk
    exact List.getElem?_set_ne (fun he => hk he.symm)
  · intro k hk
    exact first_unset_before buf _ k hk
  · intro hlt
    exact first_unset_at buf _ (by omega) hlt

/-- Witness for `canvas_get_type_appends`: a chain with slots 0 and 1
occupied; the tag lands in slot 2, the first unset one. -/
theorem canvas_get_type_appends_witness :
    short_type_chain.length = LV_MAX_ANCESTOR_NUM ∧
    (canvas_get_type short_type_chain)[
      first_unset short_type_chain (LV_MAX_ANCESTOR_NUM - 1)]? =
      some (some "lv_canvas") ∧
    short_type_chain[first_unset short_type_chain (LV_MAX_ANCESTOR_NUM - 1)]? =
      some none :=
  ⟨by decide,
   (canvas_get_type_appends short_type_chain (by decide)).2.2.1,
   (canvas_get_type_appends short_type_chain (by decide)).2.2.2.2.2 (by decide)⟩

/-- Counterexample to claim C4 as stated: when every slot of the type
chain is already occupied the handler does not silently drop the tag —
the search loop stops at index `LV_MAX_ANCESTOR_NUM - 1` and the
unconditional store overwrites the last slot, so the chain changes. -/
theorem canvas_get_type_full_chain_overwrites :
    canvas_get_type full_type_chain ≠ full_type_chain := by decide

end LvCanvas
